import Mathlib

/-!
Verification development for the aivoice repository: a small FastAPI gateway
that forwards text to an external text-to-speech provider and returns audio
bytes, with a speech-to-text passthrough.  Two revisions are embedded:
`src/server.py` (the OpenAI-client revision) and `src/app/main.py` together
with `src/app/tts_engine.py` (the OpenVoice-wrapper revision).

The embedding is shallow: each HTTP handler becomes a pure Lean function of
its request data, the environment configuration, and the outcome of the one
external provider call it may make.  External calls (the OpenAI TTS / Whisper
APIs, the upstream proxy, the ffmpeg conversion) are parameters of the
environment; each handler result carries the number of external provider
invocations the handler performed, mirroring the single call site in the
Python source.  HTTPException(status, detail) becomes `Resp.err status detail`;
StreamingResponse with a media type becomes `Resp.audio`; JSON bodies become
`Resp.json` over a tiny JSON-value type.
-/

set_option linter.unusedVariables false

namespace AiVoice

/-- Minimal JSON value type: the handlers only ever emit booleans and strings. -/
inductive JVal where
  | bool (b : Bool)
  | str (s : String)
deriving DecidableEq, Repr

/-- A JSON object, as an ordered association list of fields. -/
abbrev JObj := List (String × JVal)

/-- Result of a handler: a streamed audio body with a media type (HTTP 200),
a JSON body (HTTP 200), or an HTTPException with a status and detail. -/
inductive Resp where
  | audio (bytes : List Nat) (mediaType : String)
  | json (obj : JObj)
  | err (status : Nat) (detail : String)
deriving DecidableEq, Repr

/-- HTTP status of a handler result. -/
def Resp.status : Resp → Nat
  | .audio _ _ => 200
  | .json _ => 200
  | .err s _ => s

/-- A handler outcome: the response together with the number of external
provider invocations performed while producing it. -/
structure Outcome where
  resp : Resp
  calls : Nat
deriving DecidableEq, Repr

/-- Python `s or d` on strings: the empty string is falsy. -/
def pyOrStr (s d : String) : String := if s = "" then d else s

/-- Python `o or d` on `Optional[str]`: `None` and `""` are falsy. -/
def pyOrOpt (o : Option String) (d : String) : String :=
  match o with
  | none => d
  | some s => pyOrStr s d

/-- The whitespace characters stripped by Python's default `str.strip()`. -/
def pyIsSpace (c : Char) : Bool :=
  c = ' ' ∨ c = '\t' ∨ c = '\n' ∨ c = '\x0d' ∨ c = '\x0b' ∨ c = '\x0c'

/-- Python `str.strip()`: drop leading and trailing whitespace. -/
def pyStrip (s : String) : String :=
  ⟨(((s.data.dropWhile pyIsSpace).reverse.dropWhile pyIsSpace).reverse)⟩

/-- ASCII lowering of one character, as Python `str.lower()` acts on the
ASCII strings these handlers deal in. -/
def pyLowerChar (c : Char) : Char :=
  if 'A' ≤ c ∧ c ≤ 'Z' then Char.ofNat (c.toNat + 32) else c

/-- Python `str.lower()` on the ASCII strings these handlers deal in. -/
def pyLower (s : String) : String :=
  ⟨s.data.map pyLowerChar⟩

/-! ## Embedding of src/server.py -/

/-- Environment configuration read by src/server.py at import time. -/
structure ServerCfg where
  openaiApiKey : String
  openaiTtsModel : String
  openaiTtsVoice : String
  aivoiceApiKey : String
deriving DecidableEq, Repr

/-- The parts of the incoming HTTP request that src/server.py inspects:
the method and the `X-AIVOICE-KEY` header (`none` when absent). -/
structure HttpReq where
  method : String
  xAivoiceKey : Option String
deriving DecidableEq, Repr

/-- The value space of the Pydantic field `Literal["mp3", "wav"]`. -/
inductive Fmt where
  | mp3
  | wav
deriving DecidableEq, Repr

/-- String carried by a `Literal["mp3", "wav"]` value. -/
def Fmt.toStr : Fmt → String
  | .mp3 => "mp3"
  | .wav => "wav"

/-- Pydantic validation of a raw `format` string against
`Literal["mp3", "wav"]`: any other string fails request validation, so the
request never reaches the handler (FastAPI answers 422). -/
def parseFmt (s : String) : Option Fmt :=
  if s = "mp3" then some Fmt.mp3 else if s = "wav" then some Fmt.wav else none

/-- The `SpeakRequest` Pydantic model of src/server.py:
`text : str`, `voice : Optional[str] = None`,
`format : Optional[Literal["mp3","wav"]] = "mp3"`. -/
structure SpeakRequest where
  text : String
  voice : Option String := none
  format : Option Fmt := some Fmt.mp3
deriving DecidableEq, Repr

/-- Embedding of `_require_service_key` (src/server.py lines 66-71):
`some r` is the HTTPException it raises, `none` means the request passes.
OPTIONS requests are never blocked; otherwise, when `AIVOICE_API_KEY` is
non-empty and the `X-AIVOICE-KEY` header is absent or different, 401. -/
def requireServiceKey (cfg : ServerCfg) (r : HttpReq) : Option Resp :=
  if r.method = "OPTIONS" then none
  else if cfg.aivoiceApiKey ≠ "" ∧ r.xAivoiceKey ≠ some cfg.aivoiceApiKey then
    some (Resp.err 401 "Invalid X-AIVOICE-KEY")
  else none

/-- Embedding of `_mime` (src/server.py lines 73-75):
`fmt = (fmt or "mp3").lower().strip()`, then mp3 maps to audio/mpeg and
everything else to audio/wav. -/
def mime (fmt : String) : String :=
  let f := pyStrip (pyLower (pyOrStr fmt "mp3"))
  if f = "mp3" then "audio/mpeg" else "audio/wav"

/-- Embedding of the `/speak` handler of src/server.py.  `provider` is the
outcome of `client.audio.speech.create(model, voice, input).read()` as a
function of the voice and input text actually passed (the handler does not
forward the format to the provider); `Except.error e` is a raised exception
with message `e`. -/
def serverSpeak (cfg : ServerCfg) (req : SpeakRequest) (request : HttpReq)
    (provider : String → String → Except String (List Nat)) : Outcome :=
  match requireServiceKey cfg request with
  | some e => ⟨e, 0⟩
  | none =>
    if cfg.openaiApiKey = "" then ⟨Resp.err 500 "OPENAI_API_KEY not configured", 0⟩
    else
      let text := pyStrip (pyOrStr req.text "")
      if text = "" then ⟨Resp.err 400 "text required", 0⟩
      else
        let voice := pyStrip (pyOrOpt req.voice cfg.openaiTtsVoice)
        let fmt := pyLower (pyStrip (pyOrOpt (req.format.map Fmt.toStr) "mp3"))
        match provider voice text with
        | .ok b => ⟨Resp.audio b (mime fmt), 1⟩
        | .error e => ⟨Resp.err 500 ("TTS failed: " ++ e), 1⟩

/-- Embedding of the `/tts` handler of src/server.py: it delegates to
`speak(req, request)` unchanged. -/
def serverTts (cfg : ServerCfg) (req : SpeakRequest) (request : HttpReq)
    (provider : String → String → Except String (List Nat)) : Outcome :=
  serverSpeak cfg req request provider

/-- Embedding of the `/stt` handler of src/server.py.  The `request`
parameter defaults to `None` in the source (`request : Request = None`) and
the service-key check runs only under `if request:`; `transcribe` is the
outcome of `client.audio.transcriptions.create(model="whisper-1", file=f)`
on the uploaded bytes.  `filename` is only used to name the in-memory file
and does not influence the embedded result. -/
def serverStt (cfg : ServerCfg) (fileBytes : List Nat) (filename : Option String)
    (request : Option HttpReq) (transcribe : List Nat → Except String String) : Outcome :=
  let gate : Option Resp :=
    match request with
    | some r => requireServiceKey cfg r
    | none => none
  match gate with
  | some e => ⟨e, 0⟩
  | none =>
    if cfg.openaiApiKey = "" then ⟨Resp.err 500 "OPENAI_API_KEY not configured", 0⟩
    else if fileBytes = [] then ⟨Resp.err 400 "empty audio", 0⟩
    else
      match transcribe fileBytes with
      | .ok t => ⟨Resp.json [("text", JVal.str t)], 1⟩
      | .error e => ⟨Resp.err 500 ("STT failed: " ++ e), 1⟩

/-- Embedding of the `/whisper` handler of src/server.py: it delegates to
`stt(file, request)` unchanged. -/
def serverWhisper (cfg : ServerCfg) (fileBytes : List Nat) (filename : Option String)
    (request : Option HttpReq) (transcribe : List Nat → Except String String) : Outcome :=
  serverStt cfg fileBytes filename request transcribe

/-- Embedding of the `/health` handler of src/server.py: it returns
`{"ok": True, "model": OPENAI_TTS_MODEL}`. -/
def serverHealth (cfg : ServerCfg) : JObj :=
  [("ok", JVal.bool true), ("model", JVal.str cfg.openaiTtsModel)]

/-! ## Embedding of src/app/tts_engine.py -/

/-- An invocation of the OpenAI TTS provider as tts_engine.py performs it:
the modern client passes `format=preferred_format`, the legacy fallback
passes no format (`format = none`). -/
structure ProviderReq where
  model : String
  voice : String
  input : String
  format : Option String
deriving DecidableEq, Repr

/-- Environment of src/app/tts_engine.py: configuration read at import time
plus the outcomes of the external effects it may perform. `provider` is
`client.audio.speech.create(...).read()` (`Except.error e` is a raised
exception with message `e`); `modernOpenAI` records whether
`from openai import OpenAI` succeeds; `ffmpegExists` is `_ffmpeg_exists()`;
`convert` is the mp3-to-wav conversion through ffmpeg
(`Except.error` when ffmpeg fails). -/
structure TtsEnv where
  openaiApiKey : String
  openaiTtsModel : String
  modernOpenAI : Bool
  ffmpegExists : Bool
  provider : ProviderReq → Except String (List Nat)
  convert : List Nat → Except String (List Nat)

/-- Embedding of `get_audio_mime` (src/app/tts_engine.py lines 12-18):
`fmt = (fmt or "").lower()`, then mp3 and wav map to their MIME types and
anything else to application/octet-stream. -/
def getAudioMime (fmt : String) : String :=
  let f := pyLower (pyOrStr fmt "")
  if f = "mp3" then "audio/mpeg"
  else if f = "wav" then "audio/wav"
  else "application/octet-stream"

/-- Embedding of
`preferred_format = "mp3" if out_fmt not in ("mp3", "wav") else out_fmt`
(src/app/tts_engine.py). -/
def preferredFormat (outFmt : String) : String :=
  if outFmt ≠ "mp3" ∧ outFmt ≠ "wav" then "mp3" else outFmt

/-- Result of the synthesis engine: the returned bytes or the raised
exception's message, with the number of provider invocations performed. -/
structure EngineOut where
  result : Except String (List Nat)
  calls : Nat
deriving Repr

/-- Embedding of `_openai_tts_bytes` (src/app/tts_engine.py).  On the modern
client path the provider is asked for `preferred_format` directly, and the
mp3-to-wav conversion branch requires `out_fmt == "wav"` and
`preferred_format == "mp3"` simultaneously; on the legacy fallback path the
provider gets no format and a wav request triggers conversion when ffmpeg is
present, and returns the provider's bytes unchanged when it is not. -/
def openaiTtsBytes (env : TtsEnv) (text : String) (voice : Option String)
    (outFmt : String) : EngineOut :=
  if env.openaiApiKey = "" then ⟨.error "Missing OPENAI_API_KEY in environment", 0⟩
  else if env.modernOpenAI then
    let chosenVoice := pyOrOpt voice "alloy"
    let pf := preferredFormat outFmt
    match env.provider ⟨env.openaiTtsModel, chosenVoice, text, some pf⟩ with
    | .error e => ⟨.error e, 1⟩
    | .ok audioBytes =>
      if outFmt = "wav" ∧ pf = "mp3" then
        if ¬ env.ffmpegExists then ⟨.ok audioBytes, 1⟩
        else ⟨env.convert audioBytes, 1⟩
      else ⟨.ok audioBytes, 1⟩
  else
    let chosenVoice := pyOrOpt voice "alloy"
    match env.provider ⟨env.openaiTtsModel, chosenVoice, text, none⟩ with
    | .error e => ⟨.error e, 1⟩
    | .ok audioBytes =>
      if outFmt = "wav" then
        if ¬ env.ffmpegExists then ⟨.ok audioBytes, 1⟩
        else ⟨env.convert audioBytes, 1⟩
      else ⟨.ok audioBytes, 1⟩

/-- Embedding of `synthesize_audio_bytes` (src/app/tts_engine.py lines
108-131): strip the text (ValueError when empty), lower-case the format and
coerce anything outside mp3/wav to mp3, then delegate to `_openai_tts_bytes`.
The `speed` and `pitch` parameters of the source are accepted but never
applied, so they are omitted from the embedding. -/
def synthesizeAudioBytes (env : TtsEnv) (text : String) (voice : Option String)
    (fmt : String) : EngineOut :=
  let t := pyStrip (pyOrStr text "")
  if t = "" then ⟨.error "text is required", 0⟩
  else
    let f := pyLower (pyOrStr fmt "mp3")
    let f := if f ≠ "mp3" ∧ f ≠ "wav" then "mp3" else f
    openaiTtsBytes env t voice f

/-! ## Embedding of src/app/main.py -/

/-- The `SpeakRequest` Pydantic model of src/app/main.py: here `format` is a
plain optional string.  The unused `speed` and `pitch` fields are omitted. -/
structure AppSpeakRequest where
  text : String
  voice : Option String := none
  format : Option String := some "mp3"
deriving DecidableEq, Repr

/-- The upstream proxy's successful HTTP response: its body bytes and its
content-type header (`none` when absent). -/
structure UpstreamResp where
  content : List Nat
  contentType : Option String
deriving DecidableEq, Repr

/-- Environment of src/app/main.py: the `OPENVOICE_UPSTREAM_URL` value
(already stripped; non-empty switches the handler to proxy mode), the
outcome of the proxied POST (with `raise_for_status` folded in: any
httpx.HTTPError becomes `Except.error e`), and the tts_engine environment
used in local mode. -/
structure AppEnv where
  upstreamUrl : String
  upstream : Except String UpstreamResp
  engine : TtsEnv

/-- Embedding of the `/health` handler of src/app/main.py: `{"ok": True}`. -/
def appHealth : JObj := [("ok", JVal.bool true)]

/-- Embedding of the `/speak` handler of src/app/main.py.  Text is validated
first (400 when blank), then the format (400 when outside mp3/wav); with an
upstream configured the request is proxied and the upstream's content-type
header is used when present (falling back to `get_audio_mime`), httpx errors
mapping to 502; otherwise `synthesize_audio_bytes` runs locally, its
exceptions mapping to 500, and the response is labelled
`get_audio_mime(fmt)`. -/
def appSpeak (env : AppEnv) (req : AppSpeakRequest) : Outcome :=
  let text := pyStrip (pyOrStr req.text "")
  if text = "" then ⟨Resp.err 400 "text is required", 0⟩
  else
    let fmt := pyLower (pyOrOpt req.format "mp3")
    if fmt ≠ "mp3" ∧ fmt ≠ "wav" then ⟨Resp.err 400 "format must be mp3 or wav", 0⟩
    else
      if env.upstreamUrl ≠ "" then
        match env.upstream with
        | .error e => ⟨Resp.err 502 ("Upstream error: " ++ e), 1⟩
        | .ok r =>
          let ct :=
            match r.contentType with
            | some c => pyOrStr c (getAudioMime fmt)
            | none => getAudioMime fmt
          ⟨Resp.audio r.content ct, 1⟩
      else
        match synthesizeAudioBytes env.engine text req.voice fmt with
        | ⟨.ok b, c⟩ => ⟨Resp.audio b (getAudioMime fmt), c⟩
        | ⟨.error e, c⟩ => ⟨Resp.err 500 ("TTS error: " ++ e), c⟩

/-! ## Helper lemmas -/

lemma pyOrStr_empty_default (s : String) : pyOrStr s "" = s := by
  by_cases h : s = "" <;> simp [pyOrStr, h]

lemma pyStrip_eq_rdropWhile (s : String) :
    pyStrip s = ⟨List.rdropWhile pyIsSpace (List.dropWhile pyIsSpace s.data)⟩ := rfl

lemma dropWhile_cons_not (p : Char → Bool) (l rest : List Char) (a : Char)
    (h : List.dropWhile p l = a :: rest) : ¬ p a := by
  induction l with
  | nil => simp [List.dropWhile] at h
  | cons x xs ih =>
    by_cases hx : p x = true
    · rw [List.dropWhile_cons, if_pos hx] at h
      exact ih h
    · rw [List.dropWhile_cons, if_neg hx] at h
      obtain ⟨h1, _⟩ := List.cons.injEq .. ▸ h
      subst h1
      exact hx

lemma pyStrip_idem (s : String) : pyStrip (pyStrip s) = pyStrip s := by
  have main : ∀ l : List Char,
      List.rdropWhile pyIsSpace (List.dropWhile pyIsSpace
        (List.rdropWhile pyIsSpace (List.dropWhile pyIsSpace l)))
      = List.rdropWhile pyIsSpace (List.dropWhile pyIsSpace l) := by
    intro l
    obtain ⟨t, ht⟩ := List.rdropWhile_prefix pyIsSpace (List.dropWhile pyIsSpace l)
    have hdropR : List.dropWhile pyIsSpace
        (List.rdropWhile pyIsSpace (List.dropWhile pyIsSpace l))
        = List.rdropWhile pyIsSpace (List.dropWhile pyIsSpace l) := by
      rcases hRc : List.rdropWhile pyIsSpace (List.dropWhile pyIsSpace l) with _ | ⟨a, rt⟩
      · simp
      · have hconsA : List.dropWhile pyIsSpace l = a :: (rt ++ t) := by
          rw [← ht, hRc]
          simp
        have hpa : ¬ pyIsSpace a := dropWhile_cons_not pyIsSpace l (rt ++ t) a hconsA
        simp [List.dropWhile_cons, hpa]
    rw [hdropR]
    exact List.rdropWhile_idempotent _ _
  rw [pyStrip_eq_rdropWhile s, pyStrip_eq_rdropWhile]
  exact congrArg String.mk (main s.data)

lemma requireServiceKey_of_options (cfg : ServerCfg) (r : HttpReq)
    (h : r.method = "OPTIONS") : requireServiceKey cfg r = none := by
  simp [requireServiceKey, h]

lemma requireServiceKey_of_noSecret (cfg : ServerCfg) (r : HttpReq)
    (h : cfg.aivoiceApiKey = "") : requireServiceKey cfg r = none := by
  unfold requireServiceKey
  split
  · rfl
  · simp [h]

lemma requireServiceKey_eq_some (cfg : ServerCfg) (r : HttpReq) (e : Resp)
    (h : requireServiceKey cfg r = some e) :
    e = Resp.err 401 "Invalid X-AIVOICE-KEY" := by
  unfold requireServiceKey at h
  split at h
  · exact absurd h (by simp)
  · split at h
    · exact (Option.some.inj h).symm
    · exact absurd h (by simp)

lemma serverSpeak_status_ne_401 (cfg : ServerCfg) (req : SpeakRequest) (r : HttpReq)
    (provider : String → String → Except String (List Nat))
    (h : requireServiceKey cfg r = none) :
    (serverSpeak cfg req r provider).resp.status ≠ 401 := by
  simp only [serverSpeak, h]
  split
  · simp [Resp.status]
  · split
    · simp [Resp.status]
    · split <;> simp [Resp.status]

lemma serverStt_status_ne_401 (cfg : ServerCfg) (bytes : List Nat) (name : Option String)
    (request : Option HttpReq) (transcribe : List Nat → Except String String)
    (h : (match request with
          | some r => requireServiceKey cfg r
          | none => none) = (none : Option Resp)) :
    (serverStt cfg bytes name request transcribe).resp.status ≠ 401 := by
  simp only [serverStt, h]
  split
  · simp [Resp.status]
  · split
    · simp [Resp.status]
    · split <;> simp [Resp.status]

lemma serverSpeak_calls_le_one (cfg : ServerCfg) (req : SpeakRequest) (r : HttpReq)
    (provider : String → String → Except String (List Nat)) :
    (serverSpeak cfg req r provider).calls ≤ 1 := by
  simp only [serverSpeak]
  repeat' split
  all_goals simp

lemma serverStt_calls_le_one (cfg : ServerCfg) (bytes : List Nat) (name : Option String)
    (request : Option HttpReq) (transcribe : List Nat → Except String String) :
    (serverStt cfg bytes name request transcribe).calls ≤ 1 := by
  simp only [serverStt]
  repeat' split
  all_goals simp

lemma openaiTtsBytes_calls_le_one (env : TtsEnv) (text : String) (voice : Option String)
    (outFmt : String) : (openaiTtsBytes env text voice outFmt).calls ≤ 1 := by
  simp only [openaiTtsBytes]
  repeat' split
  all_goals simp

lemma synthesizeAudioBytes_calls_le_one (env : TtsEnv) (text : String)
    (voice : Option String) (fmt : String) :
    (synthesizeAudioBytes env text voice fmt).calls ≤ 1 := by
  simp only [synthesizeAudioBytes]
  split
  · simp
  · exact openaiTtsBytes_calls_le_one _ _ _ _

lemma appSpeak_calls_le_one (env : AppEnv) (req : AppSpeakRequest) :
    (appSpeak env req).calls ≤ 1 := by
  simp only [appSpeak]
  split
  · simp
  · split
    · simp
    · split
      · split <;> simp
      · split
        · rename_i b c heq
          have h := synthesizeAudioBytes_calls_le_one env.engine
            (pyStrip (pyOrStr req.text "")) req.voice (pyLower (pyOrOpt req.format "mp3"))
          rw [heq] at h
          simpa using h
        · rename_i e c heq
          have h := synthesizeAudioBytes_calls_le_one env.engine
            (pyStrip (pyOrStr req.text "")) req.voice (pyLower (pyOrOpt req.format "mp3"))
          rw [heq] at h
          simpa using h

lemma synthesizeAudioBytes_provider_error (env : TtsEnv) (text : String)
    (voice : Option String) (fmt : String) (e : String)
    (hkey : env.openaiApiKey ≠ "")
    (ht : pyStrip (pyOrStr text "") ≠ "")
    (hp : ∀ pr, env.provider pr = Except.error e) :
    synthesizeAudioBytes env text voice fmt = ⟨Except.error e, 1⟩ := by
  by_cases hm : env.modernOpenAI <;>
    simp [synthesizeAudioBytes, openaiTtsBytes, ht, hkey, hp, hm]

lemma synthesizeAudioBytes_mp3_ok (env : TtsEnv) (b : List Nat) (t : String)
    (v : Option String)
    (hkey : env.openaiApiKey ≠ "")
    (hp : ∀ pr, env.provider pr = Except.ok b)
    (ht : pyStrip (pyOrStr t "") ≠ "") :
    synthesizeAudioBytes env t v "mp3" = ⟨Except.ok b, 1⟩ := by
  have d : pyLower (pyOrStr "mp3" "mp3") = "mp3" := by decide
  by_cases hm : env.modernOpenAI <;>
    simp [synthesizeAudioBytes, openaiTtsBytes, preferredFormat, ht, hkey, hp, hm, d]

lemma synthesizeAudioBytes_wav_legacy_raw (env : TtsEnv) (b : List Nat) (t : String)
    (v : Option String)
    (hkey : env.openaiApiKey ≠ "") (hmod : env.modernOpenAI = false)
    (hff : env.ffmpegExists = false)
    (hp : ∀ pr, env.provider pr = Except.ok b)
    (ht : pyStrip (pyOrStr t "") ≠ "") :
    synthesizeAudioBytes env t v "wav" = ⟨Except.ok b, 1⟩ := by
  have d : pyLower (pyOrStr "wav" "mp3") = "wav" := by decide
  simp [synthesizeAudioBytes, openaiTtsBytes, ht, hkey, hmod, hff, hp, d]

lemma serverSpeak_audio_mediaType (cfg : ServerCfg) (req : SpeakRequest) (r : HttpReq)
    (provider : String → String → Except String (List Nat)) (b : List Nat) (ct : String)
    (h : (serverSpeak cfg req r provider).resp = Resp.audio b ct) :
    ct = mime (pyLower (pyStrip (pyOrOpt (req.format.map Fmt.toStr) "mp3"))) := by
  simp only [serverSpeak] at h
  split at h
  · rename_i e hgate
    rw [requireServiceKey_eq_some cfg r e hgate] at h
    simp at h
  · split at h
    · simp at h
    · split at h
      · simp at h
      · split at h
        · simp at h
          exact h.2.symm
        · simp at h

lemma appSpeak_local_audio_mediaType (env : AppEnv) (req : AppSpeakRequest)
    (b : List Nat) (ct : String)
    (hup : env.upstreamUrl = "")
    (h : (appSpeak env req).resp = Resp.audio b ct) :
    ct = getAudioMime (pyLower (pyOrOpt req.format "mp3")) := by
  simp only [appSpeak] at h
  split at h
  · simp at h
  · split at h
    · simp at h
    · split at h
      · rename_i hne
        exact absurd hup hne
      · split at h
        · simp at h
          exact h.2.symm
        · simp at h

lemma appSpeak_proxy_noheader_mediaType (env : AppEnv) (req : AppSpeakRequest)
    (ur : UpstreamResp) (b : List Nat) (ct : String)
    (hup : env.upstreamUrl ≠ "")
    (hok : env.upstream = Except.ok ur)
    (hct : ur.contentType = none)
    (h : (appSpeak env req).resp = Resp.audio b ct) :
    ct = getAudioMime (pyLower (pyOrOpt req.format "mp3")) := by
  simp only [appSpeak] at h
  split at h
  · simp at h
  · split at h
    · simp at h
    · split at h
      · simp at h
      · rename_i r' heq
        rw [hok] at heq
        obtain rfl : ur = r' := Except.ok.inj heq
        simp [hct] at h
        exact h.2.symm

lemma appSpeak_local_provider_error (env : AppEnv) (req : AppSpeakRequest) (e : String)
    (hup : env.upstreamUrl = "")
    (ht : pyStrip (pyOrStr req.text "") ≠ "")
    (hf : ¬(pyLower (pyOrOpt req.format "mp3") ≠ "mp3" ∧
           pyLower (pyOrOpt req.format "mp3") ≠ "wav"))
    (hkey : env.engine.openaiApiKey ≠ "")
    (hp : ∀ pr, env.engine.provider pr = Except.error e) :
    appSpeak env req = ⟨Resp.err 500 ("TTS error: " ++ e), 1⟩ := by
  have ht2 : pyStrip (pyOrStr (pyStrip (pyOrStr req.text "")) "") ≠ "" := by
    rw [pyOrStr_empty_default, pyStrip_idem]
    exact ht
  have hsynth := synthesizeAudioBytes_provider_error env.engine
    (pyStrip (pyOrStr req.text "")) req.voice (pyLower (pyOrOpt req.format "mp3")) e
    hkey ht2 hp
  simp [appSpeak, ht, hf, hup, hsynth]

/-! ## Claim theorems -/

/-- C1: for every POST /speak request whose text field is empty or consists
only of whitespace, the handler raises HTTP 400, regardless of the values of
the voice and format fields, in both server revisions.  For src/server.py
the request is assumed to reach the text validation (the service-key gate
passes and the OpenAI client is configured, the checks that precede it);
src/app/main.py validates the text unconditionally and first. -/
theorem speak_blank_text_400
    (cfg : ServerCfg) (req : SpeakRequest) (r : HttpReq)
    (provider : String → String → Except String (List Nat))
    (env : AppEnv) (areq : AppSpeakRequest)
    (hgate : requireServiceKey cfg r = none)
    (hclient : cfg.openaiApiKey ≠ "")
    (hblank : pyStrip (pyOrStr req.text "") = "")
    (hablank : pyStrip (pyOrStr areq.text "") = "") :
    serverSpeak cfg req r provider = ⟨Resp.err 400 "text required", 0⟩ ∧
    appSpeak env areq = ⟨Resp.err 400 "text is required", 0⟩ := by
  constructor
  · simp [serverSpeak, hgate, hclient, hblank]
  · simp [appSpeak, hablank]

/-- C1 witness: concrete whitespace-only requests, with arbitrary voice and
format values, hit the 400 branch in both revisions. -/
theorem speak_blank_text_400_witness :
    serverSpeak ⟨"sk", "m", "alloy", ""⟩ ⟨" \t ", some "v", some Fmt.wav⟩ ⟨"POST", none⟩
        (fun _ _ => Except.ok [1]) = ⟨Resp.err 400 "text required", 0⟩ ∧
    appSpeak ⟨"", Except.error "e", ⟨"sk", "m", true, true, fun _ => Except.ok [1], fun b => Except.ok b⟩⟩
        ⟨"\t", some "v", some "ogg"⟩ = ⟨Resp.err 400 "text is required", 0⟩ :=
  speak_blank_text_400 _ _ _ _ _ _ (by decide) (by decide) (by decide) (by decide)

/-- C4: the POST /tts handler returns the same result as the POST /speak
handler on identical input, and POST /whisper the same result as POST /stt:
in src/server.py both aliases delegate to the aliased handler unchanged. -/
theorem tts_whisper_alias
    (cfg : ServerCfg) (req : SpeakRequest) (r : HttpReq)
    (provider : String → String → Except String (List Nat))
    (bytes : List Nat) (name : Option String) (request : Option HttpReq)
    (transcribe : List Nat → Except String String) :
    serverTts cfg req r provider = serverSpeak cfg req r provider ∧
    serverWhisper cfg bytes name request transcribe
      = serverStt cfg bytes name request transcribe :=
  ⟨rfl, rfl⟩

/-- C6 counterexample: the claim says GET /health returns the JSON object
with the single field ok = true in every revision, but the src/server.py
handler returns an object with a second field, model.  Shown at the default
model configuration. -/
theorem health_counterexample :
    serverHealth ⟨"sk", "gpt-4o-mini-tts", "alloy", ""⟩ ≠ [("ok", JVal.bool true)] := by
  decide

/-- C6 amended: GET /health returns a JSON object whose ok field is true in
every revision; src/app/main.py returns exactly the object with the single
field ok = true, while src/server.py additionally includes a model field
carrying OPENAI_TTS_MODEL. -/
theorem health_ok_field (cfg : ServerCfg) :
    appHealth = [("ok", JVal.bool true)] ∧
    serverHealth cfg = [("ok", JVal.bool true), ("model", JVal.str cfg.openaiTtsModel)] ∧
    (serverHealth cfg).lookup "ok" = some (JVal.bool true) ∧
    appHealth.lookup "ok" = some (JVal.bool true) :=
  ⟨rfl, rfl, rfl, rfl⟩

/-- C10: in src/server.py the /stt handler's request parameter defaults to
None and the service-key check runs only under `if request:`.  A call with
request = None never produces 401, whatever AIVOICE_API_KEY is, and its
result is the same as under a configuration with no service key at all. -/
theorem stt_none_request_skips_gate
    (cfg : ServerCfg) (bytes : List Nat) (name : Option String)
    (transcribe : List Nat → Except String String) :
    (serverStt cfg bytes name none transcribe).resp.status ≠ 401 ∧
    serverStt cfg bytes name none transcribe
      = serverStt ⟨cfg.openaiApiKey, cfg.openaiTtsModel, cfg.openaiTtsVoice, ""⟩
          bytes name none transcribe :=
  ⟨serverStt_status_ne_401 cfg bytes name none transcribe rfl, rfl⟩

/-- C2 counterexample: the claim asserts one consistent policy for format
values outside mp3/wav across all revisions — either every handler rejects
with 400 or every handler coerces to mp3.  At the concrete format "ogg" the
src/app/main.py handler rejects with 400 (so the all-coerce arm fails) while
src/app/tts_engine.py synthesize_audio_bytes coerces and succeeds with the
provider's bytes (so the all-reject arm fails); src/server.py does not even
admit the value (Pydantic Literal). -/
theorem format_policy_counterexample :
    appSpeak ⟨"", Except.error "e", ⟨"sk", "m", true, true, fun _ => Except.ok [7], fun b => Except.ok b⟩⟩
        ⟨"hi", none, some "ogg"⟩ = ⟨Resp.err 400 "format must be mp3 or wav", 0⟩ ∧
    (synthesizeAudioBytes ⟨"sk", "m", true, true, fun _ => Except.ok [7], fun b => Except.ok b⟩
        "hi" none "ogg").result = Except.ok [7] ∧
    parseFmt "ogg" = none :=
  ⟨by decide, rfl, rfl⟩

/-- C2 amended: the revisions do not share one policy for a format outside
mp3/wav.  src/app/main.py rejects it with 400; src/app/tts_engine.py
coerces it to mp3, behaving exactly as a request for mp3;
src/server.py rejects it at Pydantic validation of the Literal field, so it
never reaches the handler. -/
theorem format_policy_per_revision
    (env : AppEnv) (req : AppSpeakRequest) (eng : TtsEnv)
    (t : String) (v : Option String) (s : String)
    (htext : pyStrip (pyOrStr req.text "") ≠ "")
    (hfmt1 : pyLower (pyOrOpt req.format "mp3") ≠ "mp3")
    (hfmt2 : pyLower (pyOrOpt req.format "mp3") ≠ "wav")
    (hs1 : pyLower (pyOrStr s "mp3") ≠ "mp3")
    (hs2 : pyLower (pyOrStr s "mp3") ≠ "wav")
    (hps1 : s ≠ "mp3") (hps2 : s ≠ "wav") :
    appSpeak env req = ⟨Resp.err 400 "format must be mp3 or wav", 0⟩ ∧
    synthesizeAudioBytes eng t v s = synthesizeAudioBytes eng t v "mp3" ∧
    parseFmt s = none := by
  refine ⟨?_, ?_, ?_⟩
  · simp [appSpeak, htext, hfmt1, hfmt2]
  · have e : pyLower (pyOrStr "mp3" "mp3") = "mp3" := by decide
    by_cases hT : pyStrip (pyOrStr t "") = "" <;>
      simp [synthesizeAudioBytes, hT, hs1, hs2, e]
  · simp [parseFmt, hps1, hps2]

/-- C2 witness: the amended statement instantiated at format "ogg". -/
theorem format_policy_per_revision_witness :
    appSpeak ⟨"", Except.error "e", ⟨"sk", "m", false, false, fun _ => Except.ok [1], fun b => Except.ok b⟩⟩
        ⟨"hi", none, some "ogg"⟩ = ⟨Resp.err 400 "format must be mp3 or wav", 0⟩ ∧
    synthesizeAudioBytes ⟨"sk", "m", false, false, fun _ => Except.ok [1], fun b => Except.ok b⟩
        "hi" none "ogg"
      = synthesizeAudioBytes ⟨"sk", "m", false, false, fun _ => Except.ok [1], fun b => Except.ok b⟩
        "hi" none "mp3" ∧
    parseFmt "ogg" = none :=
  format_policy_per_revision _ _ _ _ _ _ (by decide) (by decide) (by decide)
    (by decide) (by decide) (by decide) (by decide)

/-- C3: with a non-empty AIVOICE_API_KEY, every write request (POST /speak,
/tts, /stt, /whisper) whose X-AIVOICE-KEY header is absent or differs from
the secret gets HTTP 401; OPTIONS requests never get 401 from this check;
and with the secret empty the check is disabled and no request of these
handlers yields 401.  For /stt and /whisper an HTTP request is embedded as
`some r`. -/
theorem service_key_gate
    (cfg : ServerCfg) (r : HttpReq) (req : SpeakRequest)
    (provider : String → String → Except String (List Nat))
    (bytes : List Nat) (name : Option String)
    (transcribe : List Nat → Except String String) :
    (cfg.aivoiceApiKey ≠ "" → r.method ≠ "OPTIONS" →
      r.xAivoiceKey ≠ some cfg.aivoiceApiKey →
      serverSpeak cfg req r provider = ⟨Resp.err 401 "Invalid X-AIVOICE-KEY", 0⟩ ∧
      serverTts cfg req r provider = ⟨Resp.err 401 "Invalid X-AIVOICE-KEY", 0⟩ ∧
      serverStt cfg bytes name (some r) transcribe
        = ⟨Resp.err 401 "Invalid X-AIVOICE-KEY", 0⟩ ∧
      serverWhisper cfg bytes name (some r) transcribe
        = ⟨Resp.err 401 "Invalid X-AIVOICE-KEY", 0⟩) ∧
    (r.method = "OPTIONS" →
      (serverSpeak cfg req r provider).resp.status ≠ 401 ∧
      (serverTts cfg req r provider).resp.status ≠ 401 ∧
      (serverStt cfg bytes name (some r) transcribe).resp.status ≠ 401 ∧
      (serverWhisper cfg bytes name (some r) transcribe).resp.status ≠ 401) ∧
    (cfg.aivoiceApiKey = "" →
      (serverSpeak cfg req r provider).resp.status ≠ 401 ∧
      (serverTts cfg req r provider).resp.status ≠ 401 ∧
      (serverStt cfg bytes name (some r) transcribe).resp.status ≠ 401 ∧
      (serverWhisper cfg bytes name (some r) transcribe).resp.status ≠ 401) := by
  refine ⟨?_, ?_, ?_⟩
  · intro hk hm hh
    have hgate : requireServiceKey cfg r = some (Resp.err 401 "Invalid X-AIVOICE-KEY") := by
      simp [requireServiceKey, hm, hk, hh]
    refine ⟨?_, ?_, ?_, ?_⟩ <;>
      simp [serverSpeak, serverTts, serverStt, serverWhisper, hgate]
  · intro hm
    have hgate := requireServiceKey_of_options cfg r hm
    exact ⟨serverSpeak_status_ne_401 cfg req r provider hgate,
      serverSpeak_status_ne_401 cfg req r provider hgate,
      serverStt_status_ne_401 cfg bytes name (some r) transcribe (by simpa using hgate),
      serverStt_status_ne_401 cfg bytes name (some r) transcribe (by simpa using hgate)⟩
  · intro hk
    have hgate := requireServiceKey_of_noSecret cfg r hk
    exact ⟨serverSpeak_status_ne_401 cfg req r provider hgate,
      serverSpeak_status_ne_401 cfg req r provider hgate,
      serverStt_status_ne_401 cfg bytes name (some r) transcribe (by simpa using hgate),
      serverStt_status_ne_401 cfg bytes name (some r) transcribe (by simpa using hgate)⟩

/-- C3 witness: a configured secret with a wrong header yields the 401
outcome on all four write handlers. -/
theorem service_key_gate_witness :
    serverSpeak ⟨"sk", "m", "alloy", "secret"⟩ ⟨"hello", none, some Fmt.mp3⟩
        ⟨"POST", some "wrong"⟩ (fun _ _ => Except.ok [1])
      = ⟨Resp.err 401 "Invalid X-AIVOICE-KEY", 0⟩ ∧
    serverTts ⟨"sk", "m", "alloy", "secret"⟩ ⟨"hello", none, some Fmt.mp3⟩
        ⟨"POST", some "wrong"⟩ (fun _ _ => Except.ok [1])
      = ⟨Resp.err 401 "Invalid X-AIVOICE-KEY", 0⟩ ∧
    serverStt ⟨"sk", "m", "alloy", "secret"⟩ [1] none (some ⟨"POST", some "wrong"⟩)
        (fun _ => Except.ok "hi")
      = ⟨Resp.err 401 "Invalid X-AIVOICE-KEY", 0⟩ ∧
    serverWhisper ⟨"sk", "m", "alloy", "secret"⟩ [1] none (some ⟨"POST", some "wrong"⟩)
        (fun _ => Except.ok "hi")
      = ⟨Resp.err 401 "Invalid X-AIVOICE-KEY", 0⟩ :=
  (service_key_gate ⟨"sk", "m", "alloy", "secret"⟩ ⟨"POST", some "wrong"⟩
      ⟨"hello", none, some Fmt.mp3⟩ (fun _ _ => Except.ok [1]) [1] none
      (fun _ => Except.ok "hi")).1 (by decide) (by decide) (by decide)

/-- C5 counterexample: the claim says every successful /speak response
carries exactly the MIME type mapped from the requested format, but in
src/app/main.py proxy mode (OPENVOICE_UPSTREAM_URL set) the upstream's
content-type header takes precedence: with the upstream answering
content-type application/json, a 200 response for format mp3 is labelled
application/json, not audio/mpeg. -/
theorem speak_mime_counterexample :
    appSpeak ⟨"http://up", Except.ok ⟨[9], some "application/json"⟩,
        ⟨"sk", "m", true, true, fun _ => Except.ok [1], fun b => Except.ok b⟩⟩
      ⟨"hello", none, some "mp3"⟩ = ⟨Resp.audio [9] "application/json", 1⟩ ∧
    getAudioMime "mp3" = "audio/mpeg" ∧
    ("application/json" : String) ≠ "audio/mpeg" :=
  ⟨by decide, by decide, by decide⟩

/-- C5 amended: every successful /speak response of src/server.py carries
the MIME type mapped from the requested format (audio/wav for wav,
audio/mpeg otherwise, mp3 being the default); src/app/main.py does the same
in local mode, and in proxy mode only when the upstream response has no
content-type header — when the upstream sends one, that header is used
verbatim instead. -/
theorem speak_mime_matches
    (cfg : ServerCfg) (req : SpeakRequest) (r : HttpReq)
    (provider : String → String → Except String (List Nat))
    (env : AppEnv) (areq : AppSpeakRequest) :
    (∀ b ct, (serverSpeak cfg req r provider).resp = Resp.audio b ct →
      (req.format = some Fmt.wav → ct = "audio/wav") ∧
      (req.format ≠ some Fmt.wav → ct = "audio/mpeg")) ∧
    (env.upstreamUrl = "" →
      ∀ b ct, (appSpeak env areq).resp = Resp.audio b ct →
      ct = getAudioMime (pyLower (pyOrOpt areq.format "mp3"))) ∧
    (env.upstreamUrl ≠ "" →
      ∀ ur, env.upstream = Except.ok ur → ur.contentType = none →
      ∀ b ct, (appSpeak env areq).resp = Resp.audio b ct →
      ct = getAudioMime (pyLower (pyOrOpt areq.format "mp3"))) := by
  refine ⟨?_, ?_, ?_⟩
  · intro b ct h
    have hmt := serverSpeak_audio_mediaType cfg req r provider b ct h
    subst hmt
    constructor
    · intro hf
      rw [hf]
      decide
    · intro hf
      rcases hfm : req.format with _ | f
      · decide
      · cases f
        · decide
        · exact absurd hfm hf
  · intro hup b ct h
    exact appSpeak_local_audio_mediaType env areq b ct hup h
  · intro hup ur hok hct b ct h
    exact appSpeak_proxy_noheader_mediaType env areq ur b ct hup hok hct h

/-- C5 witness: a concrete successful wav request through src/server.py is
labelled audio/wav, via the amended theorem. -/
theorem speak_mime_matches_witness :
    (serverSpeak ⟨"sk", "m", "alloy", ""⟩ ⟨"hello", none, some Fmt.wav⟩ ⟨"POST", none⟩
        (fun _ _ => Except.ok [1])).resp = Resp.audio [1] "audio/wav" ∧
    ("audio/wav" : String) = "audio/wav" := by
  refine ⟨by decide, ?_⟩
  exact ((speak_mime_matches ⟨"sk", "m", "alloy", ""⟩ ⟨"hello", none, some Fmt.wav⟩
      ⟨"POST", none⟩ (fun _ _ => Except.ok [1])
      ⟨"", Except.error "e", ⟨"sk", "m", true, true, fun _ => Except.ok [1], fun b => Except.ok b⟩⟩
      ⟨"hello", none, some "mp3"⟩).1 [1] "audio/wav" (by decide)).1 rfl

/-- C7: when the external provider call fails with message e, the handlers
answer HTTP 500 (502 for an upstream-proxy httpx error in src/app/main.py)
with a detail containing e, the failure is terminal for the request, and
the provider is invoked at most once on every request (no retries). -/
theorem provider_failure_terminal
    (cfg : ServerCfg) (req : SpeakRequest) (r : HttpReq) (e : String)
    (bytes : List Nat) (name : Option String)
    (providerE : String → String → Except String (List Nat))
    (transcribeE : List Nat → Except String String)
    (env : AppEnv) (areq : AppSpeakRequest)
    (hgate : requireServiceKey cfg r = none)
    (hclient : cfg.openaiApiKey ≠ "")
    (htext : pyStrip (pyOrStr req.text "") ≠ "")
    (hpe : ∀ v t, providerE v t = Except.error e)
    (hbytes : bytes ≠ [])
    (hte : ∀ bs, transcribeE bs = Except.error e)
    (hatext : pyStrip (pyOrStr areq.text "") ≠ "")
    (hafmt : ¬(pyLower (pyOrOpt areq.format "mp3") ≠ "mp3" ∧
              pyLower (pyOrOpt areq.format "mp3") ≠ "wav"))
    (hekey : env.engine.openaiApiKey ≠ "")
    (hep : ∀ pr, env.engine.provider pr = Except.error e) :
    serverSpeak cfg req r providerE = ⟨Resp.err 500 ("TTS failed: " ++ e), 1⟩ ∧
    serverStt cfg bytes name (some r) transcribeE
      = ⟨Resp.err 500 ("STT failed: " ++ e), 1⟩ ∧
    (env.upstreamUrl = "" → appSpeak env areq = ⟨Resp.err 500 ("TTS error: " ++ e), 1⟩) ∧
    (env.upstreamUrl ≠ "" → env.upstream = Except.error e →
      appSpeak env areq = ⟨Resp.err 502 ("Upstream error: " ++ e), 1⟩) ∧
    (∃ p q, "TTS failed: " ++ e = p ++ e ++ q) ∧
    (∃ p q, "STT failed: " ++ e = p ++ e ++ q) ∧
    (∃ p q, "TTS error: " ++ e = p ++ e ++ q) ∧
    (∃ p q, "Upstream error: " ++ e = p ++ e ++ q) ∧
    (∀ cfg2 req2 r2 p2, (serverSpeak cfg2 req2 r2 p2).calls ≤ 1) ∧
    (∀ cfg2 b2 n2 r2 t2, (serverStt cfg2 b2 n2 r2 t2).calls ≤ 1) ∧
    (∀ env2 areq2, (appSpeak env2 areq2).calls ≤ 1) := by
  refine ⟨?_, ?_, ?_, ?_, ⟨"TTS failed: ", "", by simp⟩, ⟨"STT failed: ", "", by simp⟩,
    ⟨"TTS error: ", "", by simp⟩, ⟨"Upstream error: ", "", by simp⟩,
    fun cfg2 req2 r2 p2 => serverSpeak_calls_le_one cfg2 req2 r2 p2,
    fun cfg2 b2 n2 r2 t2 => serverStt_calls_le_one cfg2 b2 n2 r2 t2,
    fun env2 areq2 => appSpeak_calls_le_one env2 areq2⟩
  · simp [serverSpeak, hgate, hclient, htext, hpe]
  · simp [serverStt, hgate, hclient, hbytes, hte]
  · intro hup
    exact appSpeak_local_provider_error env areq e hup hatext hafmt hekey hep
  · intro hup hupe
    simp [appSpeak, hatext, hafmt, hup, hupe]

/-- C7 witness: a provider failing with message boom surfaces in the
response details of both revisions. -/
theorem provider_failure_terminal_witness :
    serverSpeak ⟨"sk", "m", "alloy", ""⟩ ⟨"hello", none, some Fmt.mp3⟩ ⟨"POST", none⟩
        (fun _ _ => Except.error "boom") = ⟨Resp.err 500 "TTS failed: boom", 1⟩ ∧
    serverStt ⟨"sk", "m", "alloy", ""⟩ [1] none (some ⟨"POST", none⟩)
        (fun _ => Except.error "boom") = ⟨Resp.err 500 "STT failed: boom", 1⟩ ∧
    appSpeak ⟨"", Except.error "boom",
        ⟨"sk", "m", true, true, fun _ => Except.error "boom", fun b => Except.ok b⟩⟩
      ⟨"hello", none, some "mp3"⟩ = ⟨Resp.err 500 "TTS error: boom", 1⟩ := by
  have h := provider_failure_terminal ⟨"sk", "m", "alloy", ""⟩ ⟨"hello", none, some Fmt.mp3⟩
    ⟨"POST", none⟩ "boom" [1] none (fun _ _ => Except.error "boom")
    (fun _ => Except.error "boom")
    ⟨"", Except.error "boom",
      ⟨"sk", "m", true, true, fun _ => Except.error "boom", fun b => Except.ok b⟩⟩
    ⟨"hello", none, some "mp3"⟩ (by decide) (by decide) (by decide) (fun _ _ => rfl)
    (by decide) (fun _ => rfl) (by decide) (by decide) (by decide) (fun _ => rfl)
  exact ⟨h.1, h.2.1, h.2.2.1 rfl⟩

/-- C8: POST /speak with text hello and no format field (which the Pydantic
models default to mp3) under valid credentials and a successful provider
call answers 200 with content type audio/mpeg and the provider's non-empty
bytes; the same request with empty text answers 400.  Stated for both
revisions, src/app/main.py in local mode. -/
theorem speak_hello_example
    (cfg : ServerCfg) (r : HttpReq) (b : List Nat)
    (provider : String → String → Except String (List Nat)) (env : AppEnv)
    (hgate : requireServiceKey cfg r = none)
    (hclient : cfg.openaiApiKey ≠ "")
    (hprov : ∀ v t, provider v t = Except.ok b)
    (hb : b ≠ [])
    (hup : env.upstreamUrl = "")
    (hekey : env.engine.openaiApiKey ≠ "")
    (heprov : ∀ pr, env.engine.provider pr = Except.ok b) :
    (serverSpeak cfg ⟨"hello", none, some Fmt.mp3⟩ r provider
        = ⟨Resp.audio b "audio/mpeg", 1⟩ ∧
     appSpeak env ⟨"hello", none, some "mp3"⟩ = ⟨Resp.audio b "audio/mpeg", 1⟩ ∧
     b ≠ []) ∧
    (serverSpeak cfg ⟨"", none, some Fmt.mp3⟩ r provider
        = ⟨Resp.err 400 "text required", 0⟩ ∧
     appSpeak env ⟨"", none, some "mp3"⟩ = ⟨Resp.err 400 "text is required", 0⟩) := by
  have d1 : pyStrip (pyOrStr "hello" "") = "hello" := by decide
  have d2 : mime (pyLower (pyStrip (pyOrOpt (some "mp3") "mp3"))) = "audio/mpeg" := by decide
  have d3 : pyLower (pyOrOpt (some "mp3") "mp3") = "mp3" := by decide
  have d4 : getAudioMime "mp3" = "audio/mpeg" := by decide
  have d5 : pyStrip (pyOrStr "" "") = "" := by decide
  have hsy := synthesizeAudioBytes_mp3_ok env.engine b "hello" none hekey heprov (by decide)
  refine ⟨⟨?_, ?_, hb⟩, ?_, ?_⟩
  · simp [serverSpeak, hgate, hclient, hprov, d1, Fmt.toStr, d2]
  · simp [appSpeak, hup, d1, d3, d4, hsy]
  · simp [serverSpeak, hgate, hclient, d5]
  · simp [appSpeak, d5]

/-- C8 witness: the statement instantiated at a concrete configuration and
a one-byte provider response. -/
theorem speak_hello_example_witness :
    (serverSpeak ⟨"sk", "m", "alloy", ""⟩ ⟨"hello", none, some Fmt.mp3⟩ ⟨"POST", none⟩
        (fun _ _ => Except.ok [1]) = ⟨Resp.audio [1] "audio/mpeg", 1⟩ ∧
     appSpeak ⟨"", Except.error "e",
        ⟨"sk", "m", false, false, fun _ => Except.ok [1], fun b => Except.ok b⟩⟩
      ⟨"hello", none, some "mp3"⟩ = ⟨Resp.audio [1] "audio/mpeg", 1⟩ ∧
     ([1] : List Nat) ≠ []) ∧
    (serverSpeak ⟨"sk", "m", "alloy", ""⟩ ⟨"", none, some Fmt.mp3⟩ ⟨"POST", none⟩
        (fun _ _ => Except.ok [1]) = ⟨Resp.err 400 "text required", 0⟩ ∧
     appSpeak ⟨"", Except.error "e",
        ⟨"sk", "m", false, false, fun _ => Except.ok [1], fun b => Except.ok b⟩⟩
      ⟨"", none, some "mp3"⟩ = ⟨Resp.err 400 "text is required", 0⟩) :=
  speak_hello_example ⟨"sk", "m", "alloy", ""⟩ ⟨"POST", none⟩ [1]
    (fun _ _ => Except.ok [1])
    ⟨"", Except.error "e", ⟨"sk", "m", false, false, fun _ => Except.ok [1], fun b => Except.ok b⟩⟩
    (by decide) (by decide) (fun _ _ => rfl) (by decide) (by decide) (by decide)
    (fun _ => rfl)

/-- C9: a /speak request for format wav on a host without ffmpeg: the
engine (on the legacy client path, whose provider yields mp3-flavoured
bytes) returns the provider's bytes unconverted — the conversion function
is never applied, the result holds for every possible convert — while the
src/app/main.py handler still labels the response audio/wav.  The declared
content type can thus disagree with the actual encoding of the bytes. -/
theorem wav_no_ffmpeg_mislabel
    (env : AppEnv) (req : AppSpeakRequest) (b : List Nat)
    (hup : env.upstreamUrl = "")
    (hfmt : req.format = some "wav")
    (htext : pyStrip (pyOrStr req.text "") ≠ "")
    (hkey : env.engine.openaiApiKey ≠ "")
    (hmod : env.engine.modernOpenAI = false)
    (hff : env.engine.ffmpegExists = false)
    (hprov : ∀ pr, env.engine.provider pr = Except.ok b) :
    (synthesizeAudioBytes env.engine (pyStrip (pyOrStr req.text "")) req.voice "wav").result
        = Except.ok b ∧
    appSpeak env req = ⟨Resp.audio b "audio/wav", 1⟩ := by
  have ht2 : pyStrip (pyOrStr (pyStrip (pyOrStr req.text "")) "") ≠ "" := by
    rw [pyOrStr_empty_default, pyStrip_idem]
    exact htext
  have hsy := synthesizeAudioBytes_wav_legacy_raw env.engine b
    (pyStrip (pyOrStr req.text "")) req.voice hkey hmod hff hprov ht2
  have d1 : pyLower (pyOrOpt (some "wav") "mp3") = "wav" := by decide
  have d2 : getAudioMime "wav" = "audio/wav" := by decide
  constructor
  · rw [hsy]
  · simp [appSpeak, htext, hfmt, hup, d1, d2, hsy]

/-- C9 witness: concrete request and environment, with a conversion
function that would visibly alter the bytes if it were ever applied. -/
theorem wav_no_ffmpeg_mislabel_witness :
    (synthesizeAudioBytes ⟨"sk", "m", false, false, fun _ => Except.ok [7], fun b => Except.ok (0 :: b)⟩
        (pyStrip (pyOrStr "hi" "")) none "wav").result = Except.ok [7] ∧
    appSpeak ⟨"", Except.error "e",
        ⟨"sk", "m", false, false, fun _ => Except.ok [7], fun b => Except.ok (0 :: b)⟩⟩
      ⟨"hi", none, some "wav"⟩ = ⟨Resp.audio [7] "audio/wav", 1⟩ :=
  wav_no_ffmpeg_mislabel
    ⟨"", Except.error "e",
      ⟨"sk", "m", false, false, fun _ => Except.ok [7], fun b => Except.ok (0 :: b)⟩⟩
    ⟨"hi", none, some "wav"⟩ [7] (by decide) (by decide) (by decide) (by decide)
    (by decide) (by decide) (fun _ => rfl)

end AiVoice
